import Mathlib

/-!
# Verification of the x402-axum dynamic-pricing quote example

A shallow embedding of `examples/x402-axum-quote-example/src/main.rs`:
an in-memory quote store (`HashMap<String, QuoteInfo>` behind a mutex),
a quote-issuance handler, a payment-requirements resolver, and a
periodic expiry sweep.  The store is modelled as an association list,
timestamps as `Nat` (Unix seconds), and the resolver as a function from
the request context and the store state to a result plus the updated
store state.
-/

set_option autoImplicit false

namespace X402

/-- One stored quote, mirroring the Rust struct `QuoteInfo`:
a human-readable money-amount string, the client the quote was issued
to, an absolute Unix-seconds expiry, and a used flag. -/
structure QuoteInfo where
  amount : String
  client_id : String
  expires_at : Nat
  used : Bool
deriving DecidableEq

/-- The in-memory quote store `HashMap<String, QuoteInfo>` modelled as an
association list from quote id to record. -/
abbrev QuoteStore := List (String × QuoteInfo)

/-- `HashMap::get` (cloned snapshot): first binding with the given key. -/
def storeGet (s : QuoteStore) (id : String) : Option QuoteInfo :=
  match s with
  | [] => none
  | (k, v) :: rest => if k = id then some v else storeGet rest id

/-- `HashMap::insert`: stores the new record under the key, replacing any
existing binding (the Rust code performs no duplicate check). -/
def storeInsert (s : QuoteStore) (id : String) (q : QuoteInfo) : QuoteStore :=
  (id, q) :: s.filter (fun kv => kv.1 != id)

/-- Flip the `used` flag of a record, leaving every other field as is
(the effect of `info.used = true` through `get_mut`). -/
def markUsed (q : QuoteInfo) : QuoteInfo :=
  { q with used := true }

/-- The resolver's second critical section: `if let Some(info) =
store.get_mut(&quote_id) { info.used = true; }`.  With unique keys this
marks exactly the binding under `id`; marking every binding with that
key is the same operation. -/
def storeSetUsed (s : QuoteStore) (id : String) : QuoteStore :=
  match s with
  | [] => []
  | (k, v) :: rest =>
    if k = id then (k, markUsed v) :: storeSetUsed rest id
    else (k, v) :: storeSetUsed rest id

/-- The cleanup task's body: `store.retain(|_, q| q.expires_at > now)`. -/
def evict_expired (s : QuoteStore) (now : Nat) : QuoteStore :=
  s.filter (fun kv => decide (now < kv.2.expires_at))

/-- Payment scheme.  Modelled from the spec: the resolver "fixes the
payment scheme to the exact-amount scheme" (`Scheme::Exact` from the
`x402_rs` crate, whose source is not part of this example file); other
schemes are kept abstract. -/
inductive Scheme where
  | exact
  | other (tag : String)
deriving DecidableEq

/-- Modelled from the spec: `x402_axum::layer::PaymentRequirementsNoResource`
(not part of this example file) — a scheme/amount/payee/asset template
lacking the resource URL. -/
structure PaymentRequirementsNoResource where
  scheme : Scheme
  max_amount_required : Nat
  pay_to : String
  asset : String
deriving DecidableEq

/-- Modelled from the spec: `x402_rs::types::PaymentRequirements`
(not part of this example file) — the template fields plus a concrete
resource URL. -/
structure PaymentRequirements where
  scheme : Scheme
  max_amount_required : Nat
  pay_to : String
  asset : String
  resource : String
deriving DecidableEq

/-- Modelled from the spec: `to_payment_requirements` attaches the
resource URL to a template, leaving the template fields unchanged. -/
def to_payment_requirements (p : PaymentRequirementsNoResource)
    (resource : String) : PaymentRequirements :=
  ⟨p.scheme, p.max_amount_required, p.pay_to, p.asset, resource⟩

/-- Modelled from the spec: `x402_rs::types::MoneyAmount` (not part of
this example file) — a parsed non-negative decimal money amount: integer
part, number of fractional digits, fractional digits as a number. -/
structure MoneyAmount where
  int_part : Nat
  frac_len : Nat
  frac_val : Nat
deriving DecidableEq

/-- Value of a decimal digit character, `none` on a non-digit. -/
def digitVal (c : Char) : Option Nat :=
  if c.isDigit then some (c.toNat - 48) else none

/-- Parse a list of decimal digit characters, `none` on any non-digit. -/
def parseDigits (cs : List Char) (acc : Nat) : Option Nat :=
  match cs with
  | [] => some acc
  | c :: rest =>
    match digitVal c with
    | some d => parseDigits rest (acc * 10 + d)
    | none => none

/-- Split a character list at every dot (the decimal separator). -/
def splitOnDot (cs : List Char) : List (List Char) :=
  match cs with
  | [] => [[]]
  | c :: rest =>
    let r := splitOnDot rest
    if c = '.' then [] :: r
    else
      match r with
      | [] => [[c]]
      | h :: t => (c :: h) :: t

/-- Modelled from the spec: `MoneyAmount::from_str` — parses a decimal
money-amount string (`"12"` or `"12.05"`); a malformed string (empty
parts, non-digits, extra dots) is a conversion failure. -/
def MoneyAmount.from_str (s : String) : Option MoneyAmount :=
  match splitOnDot s.toList with
  | [i] =>
    if i.isEmpty then none
    else (parseDigits i 0).map (fun n => ⟨n, 0, 0⟩)
  | [i, f] =>
    if i.isEmpty || f.isEmpty then none
    else
      match parseDigits i 0, parseDigits f 0 with
      | some ip, some fv => some ⟨ip, f.length, fv⟩
      | _, _ => none
  | _ => none

/-- Modelled from the spec: `MoneyAmount::as_token_amount(decimals)` —
converts to the token's base units (`10^-decimals` of the display unit);
fails when the amount has more fractional digits than the token
represents. -/
def MoneyAmount.as_token_amount (m : MoneyAmount) (decimals : Nat) : Option Nat :=
  if m.frac_len ≤ decimals then
    some (m.int_part * 10 ^ decimals + m.frac_val * 10 ^ (decimals - m.frac_len))
  else none

/-- The two request headers the resolver reads: `X-Quote-Id` and
`X-Client-Id`, both optional. -/
structure Headers where
  quote_id : Option String
  client_id : Option String
deriving DecidableEq

/-- Modelled from the spec: `x402_axum::layer::X402Error` as produced by
this example — always `payment_header_required` carrying the nominal
requirements. -/
inductive X402Error where
  | payment_header_required (accepts : List PaymentRequirements)
deriving DecidableEq

/-- The helper `x402_required`: wraps nominal requirements in a 402. -/
def x402_required (accepts : List PaymentRequirements) : X402Error :=
  X402Error.payment_header_required accepts

/-- The resource URL built from the base URL plus the request's path and
query (`resource.set_path(uri.path()); resource.set_query(uri.query())`),
modelled as string concatenation. -/
def buildResource (base_url : String) (path : String) (query : Option String) : String :=
  base_url ++ path ++ (match query with | some q => "?" ++ q | none => "")

/-- The per-template finalization step of the success branch: attach the
resource, overwrite `max_amount_required` with the converted quoted
amount when both conversions succeed (silently keeping the template
amount otherwise), then set the scheme to `exact`. -/
def finalizeRequirement (amount_str : String) (resource : String)
    (p : PaymentRequirementsNoResource) : PaymentRequirements :=
  let pr := to_payment_requirements p resource
  let pr :=
    match MoneyAmount.from_str amount_str with
    | some m =>
      match m.as_token_amount 6 with
      | some t => { pr with max_amount_required := t }
      | none => pr
    | none => pr
  { pr with scheme := Scheme.exact }

/-- The nominal requirements: every template with the resource attached. -/
def nominalRequirements (templates : List PaymentRequirementsNoResource)
    (resource : String) : List PaymentRequirements :=
  templates.map (fun p => to_payment_requirements p resource)

/-- `resolve_payment_requirements`, sequentially: reads the two headers,
builds the resource URL, and short-circuits to the nominal-requirements
402 on a missing quote id, an unknown quote id, a client-id mismatch, an
expired quote (`expires_at < now`), or an already-used quote; otherwise
marks the quote used and returns the finalized requirements.  The
updated store state is returned alongside the result. -/
def resolve_payment_requirements (headers : Headers) (path : String)
    (query : Option String) (base_url : String)
    (templates : List PaymentRequirementsNoResource)
    (store : QuoteStore) (now : Nat) :
    Except X402Error (List PaymentRequirements) × QuoteStore :=
  let client_id := headers.client_id.getD "unknown"
  let resource := buildResource base_url path query
  match headers.quote_id with
  | none => (Except.error (x402_required (nominalRequirements templates resource)), store)
  | some quote_id =>
    match storeGet store quote_id with
    | none => (Except.error (x402_required (nominalRequirements templates resource)), store)
    | some quote_info =>
      if quote_info.client_id ≠ client_id then
        (Except.error (x402_required (nominalRequirements templates resource)), store)
      else if quote_info.expires_at < now then
        (Except.error (x402_required (nominalRequirements templates resource)), store)
      else if quote_info.used then
        (Except.error (x402_required (nominalRequirements templates resource)), store)
      else
        (Except.ok (templates.map (finalizeRequirement quote_info.amount resource)),
         storeSetUsed store quote_id)

/-- The `quote` handler's store effect: insert a fresh record under the
generated id with the priced amount, `client_id` hard-coded to
`"demo-client"`, expiry `now + 300`, and `used = false`.  The id comes
from `Uuid::new_v4()` and the amount from the pricing formula; both are
taken as parameters here. -/
def issueQuote (s : QuoteStore) (quote_id : String) (amount : String)
    (now : Nat) : QuoteStore :=
  storeInsert s quote_id ⟨amount, "demo-client", now + 300, false⟩

/-!
## Interleaving model of concurrent resolution

`resolve_payment_requirements` touches the mutex twice: once to clone a
snapshot of the record (`store.lock().await; store.get(..).cloned()`)
and once, after validating the snapshot outside the lock, to blindly set
`used = true`.  A resolve attempt is therefore two atomic steps against
the shared store, with the pure validation folded into the second.
-/

/-- The per-request inputs of one concurrent resolve attempt on the
protected route: the presented quote id, the effective client id, and
the time the attempt reads. -/
structure TaskInput where
  quote_id : String
  client_id : String
  now : Nat
deriving DecidableEq

/-- Where one resolve attempt stands: not yet at the first lock, holding
a cloned snapshot between the two critical sections, or finished with a
success flag (`true` exactly when the attempt returned finalized
requirements). -/
inductive TaskPhase where
  | ready
  | snapshotRead (snap : Option QuoteInfo)
  | finished (success : Bool)
deriving DecidableEq

/-- The validation the code performs on the cloned snapshot, outside any
lock: present, client id matches, not expired (`¬ expires_at < now`),
not used. -/
def validSnapshot (t : TaskInput) (snap : Option QuoteInfo) : Bool :=
  match snap with
  | none => false
  | some info =>
    (info.client_id == t.client_id) && !(decide (info.expires_at < t.now)) && !info.used

/-- One atomic step of a resolve attempt: the first step clones the
record under the first lock; the second validates the snapshot and,
on success, sets `used = true` under the second lock. -/
def taskStep (s : QuoteStore) (t : TaskInput) (ph : TaskPhase) :
    QuoteStore × TaskPhase :=
  match ph with
  | TaskPhase.ready => (s, TaskPhase.snapshotRead (storeGet s t.quote_id))
  | TaskPhase.snapshotRead snap =>
    if validSnapshot t snap then (storeSetUsed s t.quote_id, TaskPhase.finished true)
    else (s, TaskPhase.finished false)
  | TaskPhase.finished b => (s, TaskPhase.finished b)

/-- The shared store plus the phases of two concurrent resolve attempts. -/
structure TwoTasks where
  store : QuoteStore
  phase0 : TaskPhase
  phase1 : TaskPhase

/-- Run one scheduler choice: `false` steps attempt 0, `true` steps
attempt 1. -/
def schedStep (t0 t1 : TaskInput) (st : TwoTasks) (choice : Bool) : TwoTasks :=
  if choice then
    let r := taskStep st.store t1 st.phase1
    ⟨r.1, st.phase0, r.2⟩
  else
    let r := taskStep st.store t0 st.phase0
    ⟨r.1, r.2, st.phase1⟩

/-- Run a whole interleaving (a list of scheduler choices). -/
def runSched (t0 t1 : TaskInput) (st : TwoTasks) (sched : List Bool) : TwoTasks :=
  sched.foldl (schedStep t0 t1) st

/-!
## Traces of store operations

The store is touched by three code paths: the `quote` handler's insert,
the resolver, and the cleanup task's sweep.
-/

/-- One store operation, as performed by the three code paths. -/
inductive Op where
  | issue (quote_id : String) (amount : String) (now : Nat)
  | resolveOp (headers : Headers) (path : String) (query : Option String)
      (base_url : String) (templates : List PaymentRequirementsNoResource) (now : Nat)
  | evict (now : Nat)

/-- The store effect of one operation. -/
def applyOp (s : QuoteStore) (op : Op) : QuoteStore :=
  match op with
  | Op.issue id amount now => issueQuote s id amount now
  | Op.resolveOp h path query base templates now =>
    (resolve_payment_requirements h path query base templates s now).2
  | Op.evict now => evict_expired s now

/-- The store state after a sequence of operations. -/
def runOps (s : QuoteStore) (ops : List Op) : QuoteStore :=
  ops.foldl applyOp s

/-- Whether an operation is an insert under the given quote id. -/
def issuesId (op : Op) (id : String) : Bool :=
  match op with
  | Op.issue id2 _ _ => id2 == id
  | _ => false

/-! ## Store lemmas -/

theorem storeGet_insert_self (s : QuoteStore) (id : String) (q : QuoteInfo) :
    storeGet (storeInsert s id q) id = some q := by
  simp [storeInsert, storeGet]

theorem storeGet_filter (s : QuoteStore) (p : String × QuoteInfo → Bool) (k : String)
    (h : ∀ v, p (k, v) = true) :
    storeGet (s.filter p) k = storeGet s k := by
  induction s with
  | nil => rfl
  | cons kv rest ih =>
    by_cases hk : kv.1 = k
    · have hp : p kv = true := by
        have := h kv.2
        rwa [show (k, kv.2) = kv from by rw [← hk]] at this
      simp [List.filter, hp, storeGet, hk]
    · by_cases hp : p kv = true
      · simp [List.filter, hp, storeGet, hk, ih]
      · simp [List.filter, Bool.of_not_eq_true hp, storeGet, hk, ih]

theorem storeGet_insert_ne (s : QuoteStore) (id k : String) (q : QuoteInfo)
    (h : k ≠ id) :
    storeGet (storeInsert s id q) k = storeGet s k := by
  have : storeGet ((id, q) :: s.filter (fun kv => kv.1 != id)) k
      = storeGet (s.filter (fun kv => kv.1 != id)) k := by
    simp [storeGet, Ne.symm h]
  rw [storeInsert, this, storeGet_filter]
  intro v
  simp [h]

theorem storeGet_setUsed_self (s : QuoteStore) (id : String) :
    storeGet (storeSetUsed s id) id = (storeGet s id).map markUsed := by
  induction s with
  | nil => rfl
  | cons kv rest ih =>
    obtain ⟨k1, v⟩ := kv
    by_cases hk : k1 = id
    · simp [storeSetUsed, storeGet, hk]
    · simp [storeSetUsed, storeGet, hk, ih]

theorem storeGet_setUsed_ne (s : QuoteStore) (id k : String) (h : k ≠ id) :
    storeGet (storeSetUsed s id) k = storeGet s k := by
  induction s with
  | nil => rfl
  | cons kv rest ih =>
    obtain ⟨k1, v⟩ := kv
    by_cases hk : k1 = id
    · simp [storeSetUsed, storeGet, hk, Ne.symm h, ih]
    · by_cases hkk : k1 = k
      · simp [storeSetUsed, storeGet, hk, hkk, h]
      · simp [storeSetUsed, storeGet, hk, hkk, ih]

theorem mem_setUsed (s : QuoteStore) (id id2 : String) (r : QuoteInfo)
    (h : (id2, r) ∈ storeSetUsed s id) :
    ∃ v, (id2, v) ∈ s ∧ (r = v ∨ r = markUsed v) := by
  induction s with
  | nil => exact absurd h (by simp [storeSetUsed])
  | cons kv rest ih =>
    obtain ⟨k1, v⟩ := kv
    by_cases hk : k1 = id
    · simp only [storeSetUsed, if_pos hk, List.mem_cons] at h
      rcases h with h | h
      · obtain ⟨h1, h2⟩ := Prod.mk.injEq .. ▸ h
        exact ⟨v, by simp [h1], Or.inr h2⟩
      · obtain ⟨w, hw, hor⟩ := ih h
        exact ⟨w, List.mem_cons_of_mem _ hw, hor⟩
    · simp only [storeSetUsed, if_neg hk, List.mem_cons] at h
      rcases h with h | h
      · obtain ⟨h1, h2⟩ := Prod.mk.injEq .. ▸ h
        exact ⟨v, by simp [h1], Or.inl h2⟩
      · obtain ⟨w, hw, hor⟩ := ih h
        exact ⟨w, List.mem_cons_of_mem _ hw, hor⟩

theorem storeGet_mem (s : QuoteStore) (id : String) (r : QuoteInfo)
    (h : storeGet s id = some r) : (id, r) ∈ s := by
  induction s with
  | nil => exact absurd h (by simp [storeGet])
  | cons kv rest ih =>
    obtain ⟨k1, v⟩ := kv
    by_cases hk : k1 = id
    · simp [storeGet, hk] at h
      subst hk
      subst h
      exact List.mem_cons_self _ _
    · simp [storeGet, hk] at h
      exact List.mem_cons_of_mem _ (ih h)

theorem mem_evict_expired (s : QuoteStore) (now : Nat) (id : String) (r : QuoteInfo) :
    (id, r) ∈ evict_expired s now ↔ (id, r) ∈ s ∧ now < r.expires_at := by
  simp [evict_expired, List.mem_filter]

/-! ## Resolver branch lemmas -/

theorem resolve_no_header_eq (headers : Headers) (path : String) (query : Option String)
    (base_url : String) (templates : List PaymentRequirementsNoResource)
    (store : QuoteStore) (now : Nat)
    (hq : headers.quote_id = none) :
    resolve_payment_requirements headers path query base_url templates store now =
      (Except.error (x402_required
        (nominalRequirements templates (buildResource base_url path query))), store) := by
  simp [resolve_payment_requirements, hq]

theorem resolve_not_found_eq (headers : Headers) (path : String) (query : Option String)
    (base_url : String) (templates : List PaymentRequirementsNoResource)
    (store : QuoteStore) (now : Nat) (qid : String)
    (hq : headers.quote_id = some qid)
    (hget : storeGet store qid = none) :
    resolve_payment_requirements headers path query base_url templates store now =
      (Except.error (x402_required
        (nominalRequirements templates (buildResource base_url path query))), store) := by
  simp [resolve_payment_requirements, hq, hget]

theorem resolve_found_reject_eq (headers : Headers) (path : String) (query : Option String)
    (base_url : String) (templates : List PaymentRequirementsNoResource)
    (store : QuoteStore) (now : Nat) (qid : String) (info : QuoteInfo)
    (hq : headers.quote_id = some qid)
    (hget : storeGet store qid = some info)
    (hrej : info.client_id ≠ headers.client_id.getD "unknown" ∨
            info.expires_at < now ∨ info.used = true) :
    resolve_payment_requirements headers path query base_url templates store now =
      (Except.error (x402_required
        (nominalRequirements templates (buildResource base_url path query))), store) := by
  by_cases howner : info.client_id = headers.client_id.getD "unknown"
  · by_cases hexp : info.expires_at < now
    · simp [resolve_payment_requirements, hq, hget, howner, hexp]
    · have hused : info.used = true := by
        rcases hrej with h | h | h
        · exact absurd howner h
        · exact absurd h hexp
        · exact h
      simp [resolve_payment_requirements, hq, hget, howner, hexp, hused]
  · simp [resolve_payment_requirements, hq, hget, howner]

theorem resolve_success_eq (headers : Headers) (path : String) (query : Option String)
    (base_url : String) (templates : List PaymentRequirementsNoResource)
    (store : QuoteStore) (now : Nat) (qid : String) (info : QuoteInfo)
    (hq : headers.quote_id = some qid)
    (hget : storeGet store qid = some info)
    (howner : info.client_id = headers.client_id.getD "unknown")
    (hexp : ¬ info.expires_at < now)
    (hused : info.used = false) :
    resolve_payment_requirements headers path query base_url templates store now =
      (Except.ok (templates.map
        (finalizeRequirement info.amount (buildResource base_url path query))),
       storeSetUsed store qid) := by
  simp [resolve_payment_requirements, hq, hget, howner, hexp, hused]

theorem resolve_cases (headers : Headers) (path : String) (query : Option String)
    (base_url : String) (templates : List PaymentRequirementsNoResource)
    (store : QuoteStore) (now : Nat) :
    resolve_payment_requirements headers path query base_url templates store now =
      (Except.error (x402_required (nominalRequirements templates
        (buildResource base_url path query))), store) ∨
    ∃ qid info, headers.quote_id = some qid ∧ storeGet store qid = some info ∧
      info.client_id = headers.client_id.getD "unknown" ∧
      ¬ info.expires_at < now ∧ info.used = false ∧
      resolve_payment_requirements headers path query base_url templates store now =
        (Except.ok (templates.map
          (finalizeRequirement info.amount (buildResource base_url path query))),
         storeSetUsed store qid) := by
  cases hq : headers.quote_id with
  | none =>
    exact Or.inl (resolve_no_header_eq headers path query base_url templates store now hq)
  | some qid =>
    cases hget : storeGet store qid with
    | none =>
      exact Or.inl (resolve_not_found_eq headers path query base_url templates store now qid hq hget)
    | some info =>
      by_cases howner : info.client_id = headers.client_id.getD "unknown"
      · by_cases hexp : info.expires_at < now
        · exact Or.inl (resolve_found_reject_eq headers path query base_url templates
            store now qid info hq hget (Or.inr (Or.inl hexp)))
        · cases hused : info.used with
          | true =>
            exact Or.inl (resolve_found_reject_eq headers path query base_url templates
              store now qid info hq hget (Or.inr (Or.inr hused)))
          | false =>
            exact Or.inr ⟨qid, info, rfl, hget, howner, hexp, hused,
              resolve_success_eq headers path query base_url templates store now qid info
                hq hget howner hexp hused⟩
      · exact Or.inl (resolve_found_reject_eq headers path query base_url templates
          store now qid info hq hget (Or.inl howner))

/-- Templates and store shared by the concrete witness and counterexample
instances below. -/
def exampleTemplates : List PaymentRequirementsNoResource :=
  [⟨Scheme.other "t", 999, "payee", "usdc"⟩]

/-! ## Claims -/

/-- C3 (counterexample): a stored quote with `expires_at = 10`, presented
with the correct owner at `now = 10` (so `expires_at ≤ now`), is
successfully consumed — the code rejects only when `expires_at < now`,
so the claim fails at the boundary instant `now = expires_at`. -/
theorem c3_counterexample :
    (storeGet [("q", (⟨"0.05", "demo-client", 10, false⟩ : QuoteInfo))] "q").map
      QuoteInfo.expires_at = some 10 ∧
    (resolve_payment_requirements ⟨some "q", some "demo-client"⟩ "/r" none "b"
      exampleTemplates [("q", ⟨"0.05", "demo-client", 10, false⟩)] 10).1 =
      Except.ok [⟨Scheme.exact, 50000, "payee", "usdc", "b/r"⟩] :=
  ⟨rfl, rfl⟩

/-- C3 (amended): a stored quote record with `expires_at` strictly below
`now` is never successfully consumed: the resolve call returns the
nominal-requirements 402 and leaves the store unchanged, regardless of
the record's `used` flag and of the client id presented. -/
theorem c3_strictly_expired_never_consumed (headers : Headers) (path : String)
    (query : Option String) (base_url : String)
    (templates : List PaymentRequirementsNoResource)
    (store : QuoteStore) (now : Nat) (qid : String) (info : QuoteInfo)
    (hq : headers.quote_id = some qid)
    (hget : storeGet store qid = some info)
    (hexp : info.expires_at < now) :
    resolve_payment_requirements headers path query base_url templates store now =
      (Except.error (x402_required (nominalRequirements templates
        (buildResource base_url path query))), store) :=
  resolve_found_reject_eq headers path query base_url templates store now qid info
    hq hget (Or.inr (Or.inl hexp))

/-- C3 (witness): the amended theorem applied to a concrete store holding
an expired quote (`expires_at = 5 < now = 6`). -/
theorem c3_witness :
    resolve_payment_requirements ⟨some "q", some "demo-client"⟩ "/r" none "b"
      exampleTemplates [("q", ⟨"0.05", "demo-client", 5, false⟩)] 6 =
      (Except.error (x402_required (nominalRequirements exampleTemplates
        (buildResource "b" "/r" none))), [("q", ⟨"0.05", "demo-client", 5, false⟩)]) :=
  c3_strictly_expired_never_consumed ⟨some "q", some "demo-client"⟩ "/r" none "b"
    exampleTemplates [("q", ⟨"0.05", "demo-client", 5, false⟩)] 6 "q"
    ⟨"0.05", "demo-client", 5, false⟩ rfl rfl (by decide)

/-- C4: each of the five rejection causes — (a) missing quote-id header,
(b) unknown quote id, (c) expired quote, (d) client-id mismatch,
(e) already-used quote — makes the resolve call return the very same
value: the nominal-requirements 402 with the unchanged store; the result
carries no information about which cause occurred. -/
theorem c4_indistinguishable_rejection (headers : Headers) (path : String)
    (query : Option String) (base_url : String)
    (templates : List PaymentRequirementsNoResource)
    (store : QuoteStore) (now : Nat)
    (hrej : headers.quote_id = none ∨
      (∃ qid, headers.quote_id = some qid ∧ storeGet store qid = none) ∨
      (∃ qid info, headers.quote_id = some qid ∧ storeGet store qid = some info ∧
        info.expires_at < now) ∨
      (∃ qid info, headers.quote_id = some qid ∧ storeGet store qid = some info ∧
        info.client_id ≠ headers.client_id.getD "unknown") ∨
      (∃ qid info, headers.quote_id = some qid ∧ storeGet store qid = some info ∧
        info.used = true)) :
    resolve_payment_requirements headers path query base_url templates store now =
      (Except.error (x402_required (nominalRequirements templates
        (buildResource base_url path query))), store) := by
  rcases hrej with h | ⟨qid, hq, hget⟩ | ⟨qid, info, hq, hget, h⟩ |
    ⟨qid, info, hq, hget, h⟩ | ⟨qid, info, hq, hget, h⟩
  · exact resolve_no_header_eq headers path query base_url templates store now h
  · exact resolve_not_found_eq headers path query base_url templates store now qid hq hget
  · exact resolve_found_reject_eq headers path query base_url templates store now qid info
      hq hget (Or.inr (Or.inl h))
  · exact resolve_found_reject_eq headers path query base_url templates store now qid info
      hq hget (Or.inl h)
  · exact resolve_found_reject_eq headers path query base_url templates store now qid info
      hq hget (Or.inr (Or.inr h))

/-- C4 (witness): the theorem applied to a concrete unknown quote id
against the empty store. -/
theorem c4_witness :
    resolve_payment_requirements ⟨some "nope", none⟩ "/r" none "b"
      exampleTemplates [] 7 =
      (Except.error (x402_required (nominalRequirements exampleTemplates
        (buildResource "b" "/r" none))), []) :=
  c4_indistinguishable_rejection ⟨some "nope", none⟩ "/r" none "b"
    exampleTemplates [] 7 (Or.inr (Or.inl ⟨"nope", rfl, rfl⟩))

/-- C5 (counterexample): with `"q"` already bound in the store, the
store's insert (a plain `HashMap::insert`) replaces the existing record
with the new one and reports no error — it does not fail with
`DuplicateId` and does not leave the existing record unchanged. -/
theorem c5_counterexample :
    storeGet [("q", (⟨"0.05", "demo-client", 10, false⟩ : QuoteInfo))] "q" =
      some ⟨"0.05", "demo-client", 10, false⟩ ∧
    storeGet (storeInsert [("q", ⟨"0.05", "demo-client", 10, false⟩)] "q"
      ⟨"0.07", "demo-client", 20, false⟩) "q" = some ⟨"0.07", "demo-client", 20, false⟩ :=
  ⟨rfl, rfl⟩

/-- C5 (amended): inserting under an id that is already present silently
replaces the stored record with the new one — the operation is total
(there is no `DuplicateId` failure anywhere in the code) — while every
binding under a different id is left unchanged. -/
theorem c5_insert_overwrites (s : QuoteStore) (id : String) (q r : QuoteInfo)
    (hpresent : storeGet s id = some r) (k : String) (hk : k ≠ id) :
    storeGet (storeInsert s id q) id = some q ∧
    storeGet (storeInsert s id q) k = storeGet s k :=
  ⟨storeGet_insert_self s id q, storeGet_insert_ne s id k q hk⟩

/-- C5 (witness): the amended theorem applied to a concrete store with
`"q"` present. -/
theorem c5_witness :
    storeGet (storeInsert [("q", ⟨"0.05", "demo-client", 10, false⟩)] "q"
      ⟨"0.07", "demo-client", 20, false⟩) "q" = some ⟨"0.07", "demo-client", 20, false⟩ ∧
    storeGet (storeInsert [("q", ⟨"0.05", "demo-client", 10, false⟩)] "q"
      ⟨"0.07", "demo-client", 20, false⟩) "other" =
      storeGet [("q", ⟨"0.05", "demo-client", 10, false⟩)] "other" :=
  c5_insert_overwrites [("q", ⟨"0.05", "demo-client", 10, false⟩)] "q"
    ⟨"0.07", "demo-client", 20, false⟩ ⟨"0.05", "demo-client", 10, false⟩ rfl
    "other" (by decide)

theorem finalizeRequirement_conv_fail (amount_str resource : String)
    (hconv : (MoneyAmount.from_str amount_str).bind
      (fun m => m.as_token_amount 6) = none)
    (p : PaymentRequirementsNoResource) :
    finalizeRequirement amount_str resource p =
      { to_payment_requirements p resource with scheme := Scheme.exact } := by
  unfold finalizeRequirement
  cases hm : MoneyAmount.from_str amount_str with
  | none => simp
  | some m =>
    rw [hm, Option.some_bind] at hconv
    simp [hconv]

theorem finalizeRequirement_conv_ok (amount_str resource : String)
    (m : MoneyAmount) (t : Nat)
    (hm : MoneyAmount.from_str amount_str = some m)
    (ht : m.as_token_amount 6 = some t)
    (p : PaymentRequirementsNoResource) :
    finalizeRequirement amount_str resource p =
      ⟨Scheme.exact, t, p.pay_to, p.asset, resource⟩ := by
  unfold finalizeRequirement
  simp [hm, ht, to_payment_requirements]

/-- C1 (counterexample): with a stored quote whose amount string `"abc"`
fails conversion, a resolve call passing all quote validations does not
fail at all — it returns a successful requirements set carrying the
nominal template amount `999` as substitute; no `InvalidAmount` error
exists in the code. -/
theorem c1_counterexample :
    MoneyAmount.from_str "abc" = none ∧
    (resolve_payment_requirements ⟨some "q", some "demo-client"⟩ "/r" none "b"
      exampleTemplates [("q", ⟨"abc", "demo-client", 100, false⟩)] 10).1 =
      Except.ok [⟨Scheme.exact, 999, "payee", "usdc", "b/r"⟩] :=
  ⟨by decide, rfl⟩

/-- C1 (amended): when every quote validation passes but converting the
quoted money-amount string to base units fails, the resolution still
succeeds, each returned requirement silently keeps the nominal template
amount (only the scheme is forced to exact); no distinct server-side
error is raised. -/
theorem c1_conversion_failure_keeps_template_amount (headers : Headers)
    (path : String) (query : Option String) (base_url : String)
    (templates : List PaymentRequirementsNoResource)
    (store : QuoteStore) (now : Nat) (qid : String) (info : QuoteInfo)
    (hq : headers.quote_id = some qid)
    (hget : storeGet store qid = some info)
    (howner : info.client_id = headers.client_id.getD "unknown")
    (hexp : ¬ info.expires_at < now)
    (hused : info.used = false)
    (hconv : (MoneyAmount.from_str info.amount).bind
      (fun m => m.as_token_amount 6) = none) :
    (resolve_payment_requirements headers path query base_url templates store now).1 =
      Except.ok (templates.map (fun p =>
        { to_payment_requirements p (buildResource base_url path query) with
          scheme := Scheme.exact })) := by
  rw [resolve_success_eq headers path query base_url templates store now qid info
    hq hget howner hexp hused]
  apply congrArg Except.ok
  apply congrArg (fun f => List.map f templates)
  funext p
  exact finalizeRequirement_conv_fail info.amount
    (buildResource base_url path query) hconv p

/-- C1 (witness): the amended theorem applied to a concrete store whose
quote amount `"abc"` is malformed. -/
theorem c1_witness :
    (resolve_payment_requirements ⟨some "q", some "demo-client"⟩ "/r" none "b"
      exampleTemplates [("q", ⟨"abc", "demo-client", 100, false⟩)] 10).1 =
      Except.ok (exampleTemplates.map (fun p =>
        { to_payment_requirements p (buildResource "b" "/r" none) with
          scheme := Scheme.exact })) :=
  c1_conversion_failure_keeps_template_amount ⟨some "q", some "demo-client"⟩
    "/r" none "b" exampleTemplates [("q", ⟨"abc", "demo-client", 100, false⟩)] 10
    "q" ⟨"abc", "demo-client", 100, false⟩ rfl rfl rfl (by decide) rfl (by decide)

/-- C6: a resolve call that succeeds with a quote whose stored amount
string parses as a decimal convertible to 6-decimal base units returns
one finalized requirement per template, each carrying exactly the
converted amount and the exact-amount scheme. -/
theorem c6_finalization_correctness (headers : Headers) (path : String)
    (query : Option String) (base_url : String)
    (templates : List PaymentRequirementsNoResource)
    (store : QuoteStore) (now : Nat) (qid : String) (info : QuoteInfo)
    (m : MoneyAmount) (t : Nat)
    (hq : headers.quote_id = some qid)
    (hget : storeGet store qid = some info)
    (howner : info.client_id = headers.client_id.getD "unknown")
    (hexp : ¬ info.expires_at < now)
    (hused : info.used = false)
    (hm : MoneyAmount.from_str info.amount = some m)
    (ht : m.as_token_amount 6 = some t) :
    (resolve_payment_requirements headers path query base_url templates store now).1 =
      Except.ok (templates.map (fun p =>
        ⟨Scheme.exact, t, p.pay_to, p.asset, buildResource base_url path query⟩)) := by
  rw [resolve_success_eq headers path query base_url templates store now qid info
    hq hget howner hexp hused]
  apply congrArg Except.ok
  apply congrArg (fun f => List.map f templates)
  funext p
  exact finalizeRequirement_conv_ok info.amount
    (buildResource base_url path query) m t hm ht p

/-- C6 (witness): the theorem applied to a concrete quote with amount
`"0.05"`, which converts to `50000` base units of the 6-decimal token,
as the spec's example demands. -/
theorem c6_witness :
    MoneyAmount.from_str "0.05" = some ⟨0, 2, 5⟩ ∧
    MoneyAmount.as_token_amount ⟨0, 2, 5⟩ 6 = some 50000 ∧
    (resolve_payment_requirements ⟨some "q", some "demo-client"⟩ "/r" none "b"
      exampleTemplates [("q", ⟨"0.05", "demo-client", 10, false⟩)] 3).1 =
      Except.ok [⟨Scheme.exact, 50000, "payee", "usdc", "b/r"⟩] :=
  ⟨by decide, by decide,
    c6_finalization_correctness ⟨some "q", some "demo-client"⟩ "/r" none "b"
      exampleTemplates [("q", ⟨"0.05", "demo-client", 10, false⟩)] 3 "q"
      ⟨"0.05", "demo-client", 10, false⟩ ⟨0, 2, 5⟩ 50000
      rfl rfl rfl (by decide) rfl (by decide) (by decide)⟩

/-- C7: `evict_expired` keeps exactly the records with
`expires_at > now` (each kept record unchanged, the `used` flag playing
no role), a second sweep with the same `now` removes nothing, and the
sweep on the empty store is a no-op. -/
theorem c7_evict_exact (s : QuoteStore) (now : Nat) :
    (∀ id r, (id, r) ∈ evict_expired s now ↔ (id, r) ∈ s ∧ now < r.expires_at) ∧
    evict_expired (evict_expired s now) now = evict_expired s now ∧
    evict_expired ([] : QuoteStore) now = [] := by
  refine ⟨fun id r => mem_evict_expired s now id r, ?_, rfl⟩
  induction s with
  | nil => rfl
  | cons kv rest ih =>
    by_cases hp : now < kv.2.expires_at
    · simp only [evict_expired, List.filter] at ih ⊢
      rw [decide_eq_true hp]
      simp only [List.filter]
      rw [decide_eq_true hp]
      exact congrArg (kv :: ·) ih
    · simp only [evict_expired, List.filter] at ih ⊢
      rw [decide_eq_false hp]
      exact ih

/-- C9: a resolve call mutates at most the `used` flag of the record
stored under the presented quote id — every rejection leaves the store
unchanged, bindings under other ids are never touched, and on success
the presented id's record is either unchanged or exactly `markUsed` of
its old value, with `markUsed` preserving the amount, client id and
expiry fields. -/
theorem c9_frame (headers : Headers) (path : String) (query : Option String)
    (base_url : String) (templates : List PaymentRequirementsNoResource)
    (store : QuoteStore) (now : Nat) :
    (∀ e, (resolve_payment_requirements headers path query base_url templates store now).1 =
        Except.error e →
      (resolve_payment_requirements headers path query base_url templates store now).2 = store) ∧
    (∀ qid out, headers.quote_id = some qid →
      (resolve_payment_requirements headers path query base_url templates store now).1 =
        Except.ok out →
      (resolve_payment_requirements headers path query base_url templates store now).2 =
        storeSetUsed store qid) ∧
    (∀ qid k, headers.quote_id = some qid → k ≠ qid →
      storeGet (resolve_payment_requirements headers path query base_url templates store now).2 k =
        storeGet store k) ∧
    (∀ qid r, headers.quote_id = some qid → storeGet store qid = some r →
      storeGet (resolve_payment_requirements headers path query base_url templates store now).2 qid =
        some r ∨
      storeGet (resolve_payment_requirements headers path query base_url templates store now).2 qid =
        some (markUsed r)) ∧
    (∀ r : QuoteInfo, (markUsed r).amount = r.amount ∧
      (markUsed r).client_id = r.client_id ∧ (markUsed r).expires_at = r.expires_at) := by
  rcases resolve_cases headers path query base_url templates store now with hcase |
    ⟨qid0, info0, hq0, hget0, howner0, hexp0, hused0, hcase⟩
  · refine ⟨fun e he => by rw [hcase], fun qid out hq hok => ?_,
      fun qid k hq hk => by rw [hcase], fun qid r hq hr => Or.inl (by rw [hcase]; exact hr),
      fun r => ⟨rfl, rfl, rfl⟩⟩
    rw [hcase] at hok
    simp at hok
  · have hqq : ∀ qid, headers.quote_id = some qid → qid = qid0 := by
      intro qid hq
      rw [hq] at hq0
      exact Option.some.inj hq0
    refine ⟨fun e he => ?_, fun qid out hq hok => ?_, fun qid k hq hk => ?_,
      fun qid r hq hr => ?_, fun r => ⟨rfl, rfl, rfl⟩⟩
    · rw [hcase] at he
      simp at he
    · rw [hcase, hqq qid hq]
    · rw [hcase]
      exact storeGet_setUsed_ne store qid0 k (fun hh => hk (hh.trans (hqq qid hq).symm))
    · have hq' := hqq qid hq
      subst hq'
      rw [hcase]
      right
      rw [storeGet_setUsed_self store qid, hr]
      rfl

/-- C9 (witness): the frame theorem applied to a concrete successful
consumption — the binding under a different id is untouched. -/
theorem c9_witness :
    storeGet ((resolve_payment_requirements ⟨some "q", some "demo-client"⟩ "/r" none "b"
      exampleTemplates [("q", ⟨"0.05", "demo-client", 10, false⟩)] 4).2) "other" =
      storeGet [("q", ⟨"0.05", "demo-client", 10, false⟩)] "other" :=
  (c9_frame ⟨some "q", some "demo-client"⟩ "/r" none "b" exampleTemplates
    [("q", ⟨"0.05", "demo-client", 10, false⟩)] 4).2.2.1 "q" "other" rfl (by decide)

/-- C10: every quote the issuance handler stores carries
`client_id = "demo-client"` (the handler never reads a requester
identity); a resolve call with no `X-Client-Id` header falls back to
`"unknown"` and therefore never consumes an issued quote, while a call
presenting `"demo-client"` consumes a freshly issued quote at any time
up to its expiry. -/
theorem c10_demo_client_ownership (s : QuoteStore) (id amount : String)
    (now0 : Nat) (headers : Headers) (path : String) (query : Option String)
    (base_url : String) (templates : List PaymentRequirementsNoResource)
    (now : Nat) :
    storeGet (issueQuote s id amount now0) id =
      some ⟨amount, "demo-client", now0 + 300, false⟩ ∧
    (headers.quote_id = some id → headers.client_id = none →
      (resolve_payment_requirements headers path query base_url templates
        (issueQuote s id amount now0) now).1 =
        Except.error (x402_required (nominalRequirements templates
          (buildResource base_url path query)))) ∧
    (headers.quote_id = some id → headers.client_id = some "demo-client" →
      now ≤ now0 + 300 →
      (resolve_payment_requirements headers path query base_url templates
        (issueQuote s id amount now0) now).1 =
        Except.ok (templates.map (finalizeRequirement amount
          (buildResource base_url path query)))) := by
  have hget := storeGet_insert_self s id ⟨amount, "demo-client", now0 + 300, false⟩
  refine ⟨hget, fun hq hcid => ?_, fun hq hcid hnow => ?_⟩
  · rw [resolve_found_reject_eq headers path query base_url templates
      (issueQuote s id amount now0) now id ⟨amount, "demo-client", now0 + 300, false⟩
      hq hget (Or.inl (by
        rw [hcid]
        show ("demo-client" : String) ≠ "unknown"
        decide))]
  · rw [resolve_success_eq headers path query base_url templates
      (issueQuote s id amount now0) now id ⟨amount, "demo-client", now0 + 300, false⟩
      hq hget (by rw [hcid]; rfl) (Nat.not_lt.mpr hnow) rfl]

/-- C10 (witness): the theorem applied to a quote issued at time 0 —
the stored owner is `"demo-client"`, a header-less resolve at time 1 is
rejected, and a `"demo-client"` resolve at time 1 succeeds. -/
theorem c10_witness :
    storeGet (issueQuote [] "q" "0.01" 0) "q" =
      some ⟨"0.01", "demo-client", 300, false⟩ ∧
    (resolve_payment_requirements ⟨some "q", none⟩ "/r" none "b" exampleTemplates
      (issueQuote [] "q" "0.01" 0) 1).1 =
      Except.error (x402_required (nominalRequirements exampleTemplates
        (buildResource "b" "/r" none))) ∧
    (resolve_payment_requirements ⟨some "q", some "demo-client"⟩ "/r" none "b"
      exampleTemplates (issueQuote [] "q" "0.01" 0) 1).1 =
      Except.ok (exampleTemplates.map (finalizeRequirement "0.01"
        (buildResource "b" "/r" none))) :=
  ⟨(c10_demo_client_ownership [] "q" "0.01" 0 ⟨some "q", none⟩ "/r" none "b"
      exampleTemplates 1).1,
   (c10_demo_client_ownership [] "q" "0.01" 0 ⟨some "q", none⟩ "/r" none "b"
      exampleTemplates 1).2.1 rfl rfl,
   (c10_demo_client_ownership [] "q" "0.01" 0 ⟨some "q", some "demo-client"⟩ "/r" none "b"
      exampleTemplates 1).2.2 rfl rfl (by decide)⟩

theorem validSnapshot_true (qid cid : String) (now : Nat) (info : QuoteInfo)
    (howner : info.client_id = cid) (hexp : ¬ info.expires_at < now)
    (hused : info.used = false) :
    validSnapshot ⟨qid, cid, now⟩ (some info) = true := by
  show (info.client_id == cid && !decide (info.expires_at < now) && !info.used) = true
  rw [howner, hused, decide_eq_false hexp]
  simp

/-- C2 (counterexample): a concrete interleaving of two resolve attempts
on the same stored quote — both read their snapshot under the first lock
before either takes the second lock — in which both attempts finish
successfully, so "exactly one succeeds, no interleaving lets both
succeed" is false: the four checks and the flag write are not one
critical section. -/
theorem c2_counterexample :
    (runSched ⟨"q", "demo-client", 5⟩ ⟨"q", "demo-client", 5⟩
      ⟨[("q", ⟨"0.05", "demo-client", 100, false⟩)], TaskPhase.ready, TaskPhase.ready⟩
      [false, true, false, true]).phase0 = TaskPhase.finished true ∧
    (runSched ⟨"q", "demo-client", 5⟩ ⟨"q", "demo-client", 5⟩
      ⟨[("q", ⟨"0.05", "demo-client", 100, false⟩)], TaskPhase.ready, TaskPhase.ready⟩
      [false, true, false, true]).phase1 = TaskPhase.finished true :=
  ⟨rfl, rfl⟩

/-- C2 (amended): the four consume checks run on a snapshot cloned under
one lock acquisition and the `used` write happens under a separate later
one, so for any stored quote that passes validation, the interleaving in
which both concurrent resolve attempts read before either writes makes
both attempts succeed — the at-most-one-winner guarantee does not hold. -/
theorem c2_interleaved_double_consume (store : QuoteStore) (qid cid : String)
    (now : Nat) (info : QuoteInfo)
    (hget : storeGet store qid = some info)
    (howner : info.client_id = cid)
    (hexp : ¬ info.expires_at < now)
    (hused : info.used = false) :
    (runSched ⟨qid, cid, now⟩ ⟨qid, cid, now⟩ ⟨store, TaskPhase.ready, TaskPhase.ready⟩
      [false, true, false, true]).phase0 = TaskPhase.finished true ∧
    (runSched ⟨qid, cid, now⟩ ⟨qid, cid, now⟩ ⟨store, TaskPhase.ready, TaskPhase.ready⟩
      [false, true, false, true]).phase1 = TaskPhase.finished true := by
  have hv := validSnapshot_true qid cid now info howner hexp hused
  constructor <;>
    simp [runSched, schedStep, taskStep, List.foldl, hget, hv]

/-- C2 (witness): the amended theorem applied to a concrete valid quote. -/
theorem c2_witness :
    (runSched ⟨"k", "demo-client", 5⟩ ⟨"k", "demo-client", 5⟩
      ⟨[("k", ⟨"0.05", "demo-client", 100, false⟩)], TaskPhase.ready, TaskPhase.ready⟩
      [false, true, false, true]).phase0 = TaskPhase.finished true ∧
    (runSched ⟨"k", "demo-client", 5⟩ ⟨"k", "demo-client", 5⟩
      ⟨[("k", ⟨"0.05", "demo-client", 100, false⟩)], TaskPhase.ready, TaskPhase.ready⟩
      [false, true, false, true]).phase1 = TaskPhase.finished true :=
  c2_interleaved_double_consume [("k", ⟨"0.05", "demo-client", 100, false⟩)]
    "k" "demo-client" 5 ⟨"0.05", "demo-client", 100, false⟩ rfl rfl (by decide) rfl

/-! ## One-way consumption along traces -/

/-- Every binding under `id` is already marked used. -/
def allUsed (s : QuoteStore) (id : String) : Prop :=
  ∀ r, (id, r) ∈ s → r.used = true

theorem allUsed_insert_ne (s : QuoteStore) (id id2 : String) (q : QuoteInfo)
    (h : allUsed s id) (hne : id2 ≠ id) : allUsed (storeInsert s id2 q) id := by
  intro r hr
  rcases List.mem_cons.mp hr with hh | hh
  · exact absurd (Prod.mk.injEq .. ▸ hh).1.symm hne
  · exact h r (List.mem_filter.mp hh).1

theorem allUsed_setUsed (s : QuoteStore) (id qid : String)
    (h : allUsed s id) : allUsed (storeSetUsed s qid) id := by
  intro r hr
  obtain ⟨v, hv, hor⟩ := mem_setUsed s qid id r hr
  rcases hor with rfl | rfl
  · exact h r hv
  · rfl

theorem allUsed_evict (s : QuoteStore) (id : String) (now : Nat)
    (h : allUsed s id) : allUsed (evict_expired s now) id :=
  fun r hr => h r ((mem_evict_expired s now id r).mp hr).1

theorem allUsed_applyOp (s : QuoteStore) (id : String) (op : Op)
    (h : allUsed s id) (hop : issuesId op id = false) :
    allUsed (applyOp s op) id := by
  cases op with
  | issue id2 amount now =>
    have hne : id2 ≠ id := by
      intro hh
      rw [issuesId, hh] at hop
      simp at hop
    exact allUsed_insert_ne s id id2 _ h hne
  | resolveOp headers path query base templates now =>
    rcases resolve_cases headers path query base templates s now with hcase |
      ⟨qid0, info0, _, _, _, _, _, hcase⟩
    · show allUsed (resolve_payment_requirements headers path query base templates s now).2 id
      rw [hcase]
      exact h
    · show allUsed (resolve_payment_requirements headers path query base templates s now).2 id
      rw [hcase]
      exact allUsed_setUsed s id qid0 h
  | evict now => exact allUsed_evict s id now h

theorem allUsed_runOps (s : QuoteStore) (id : String) (ops : List Op) :
    allUsed s id → (∀ op ∈ ops, issuesId op id = false) →
    allUsed (runOps s ops) id := by
  induction ops generalizing s with
  | nil => exact fun h _ => h
  | cons op rest ih =>
    intro h hops
    exact ih (applyOp s op)
      (allUsed_applyOp s id op h (hops op (List.mem_cons_self op rest)))
      (fun o ho => hops o (List.mem_cons_of_mem op ho))

theorem storeGet_of_mem_nodup (s : QuoteStore) (id : String) (r : QuoteInfo)
    (hnodup : (s.map Prod.fst).Nodup) (hmem : (id, r) ∈ s) :
    storeGet s id = some r := by
  induction s with
  | nil => cases hmem
  | cons kv rest ih =>
    obtain ⟨k1, v⟩ := kv
    rw [List.map_cons, List.nodup_cons] at hnodup
    rcases List.mem_cons.mp hmem with h | h
    · obtain ⟨h1, h2⟩ := Prod.mk.injEq .. ▸ h
      subst h1
      subst h2
      simp [storeGet]
    · by_cases hk : k1 = id
      · exfalso
        apply hnodup.1
        rw [hk]
        exact List.mem_map.mpr ⟨(id, r), h, rfl⟩
      · rw [show storeGet ((k1, v) :: rest) id = storeGet rest id from by
          simp [storeGet, hk]]
        exact ih hnodup.2 h

theorem allUsed_of_get_used (s : QuoteStore) (id : String) (r0 : QuoteInfo)
    (hnodup : (s.map Prod.fst).Nodup) (hget : storeGet s id = some r0)
    (hused : r0.used = true) : allUsed s id := by
  intro r hr
  have h := storeGet_of_mem_nodup s id r hnodup hr
  rw [hget] at h
  exact Option.some.inj h ▸ hused

theorem resolve_allUsed_errors (headers : Headers) (path : String)
    (query : Option String) (base_url : String)
    (templates : List PaymentRequirementsNoResource)
    (store : QuoteStore) (now : Nat) (qid : String)
    (hq : headers.quote_id = some qid) (hinv : allUsed store qid) :
    (resolve_payment_requirements headers path query base_url templates store now).1 =
      Except.error (x402_required (nominalRequirements templates
        (buildResource base_url path query))) := by
  cases hget : storeGet store qid with
  | none =>
    rw [resolve_not_found_eq headers path query base_url templates store now qid hq hget]
  | some info =>
    rw [resolve_found_reject_eq headers path query base_url templates store now qid info
      hq hget (Or.inr (Or.inr (hinv info (storeGet_mem store qid info hget))))]

/-- C8 (counterexample): a reachable trace from the empty store — issue
quote `"q"`, consume it (`used` becomes true), then issue under the same
id again — after which the record's `used` flag is back to `false` and a
later resolve on `"q"` returns finalized requirements: the handler's
plain insert resets the flag, so the claimed one-way transition fails. -/
theorem c8_counterexample :
    (storeGet (runOps [] [Op.issue "q" "0.05" 0,
      Op.resolveOp ⟨some "q", some "demo-client"⟩ "/r" none "b" exampleTemplates 1]) "q").map
      QuoteInfo.used = some true ∧
    (storeGet (runOps [] [Op.issue "q" "0.05" 0,
      Op.resolveOp ⟨some "q", some "demo-client"⟩ "/r" none "b" exampleTemplates 1,
      Op.issue "q" "0.02" 2]) "q").map QuoteInfo.used = some false ∧
    (resolve_payment_requirements ⟨some "q", some "demo-client"⟩ "/r" none "b"
      exampleTemplates
      (runOps [] [Op.issue "q" "0.05" 0,
        Op.resolveOp ⟨some "q", some "demo-client"⟩ "/r" none "b" exampleTemplates 1,
        Op.issue "q" "0.02" 2]) 3).1 =
      Except.ok [⟨Scheme.exact, 20000, "payee", "usdc", "b/r"⟩] :=
  ⟨rfl, rfl, rfl⟩

/-- C8 (amended): once the record under a quote id is marked used, then
along any further sequence of operations that never issues a new quote
under that same id, every record under the id stays used and every
resolve presenting that id returns the nominal-requirements 402 —
resolve and evict never reset the flag; only a fresh insert under the
same id does. -/
theorem c8_consumed_stays_consumed (s : QuoteStore) (id : String)
    (r0 : QuoteInfo) (ops : List Op)
    (hnodup : (s.map Prod.fst).Nodup)
    (hget : storeGet s id = some r0) (hused : r0.used = true)
    (hops : ∀ op ∈ ops, issuesId op id = false) :
    (∀ r, (id, r) ∈ runOps s ops → r.used = true) ∧
    (∀ headers path query base_url templates now,
      Headers.quote_id headers = some id →
      (resolve_payment_requirements headers path query base_url templates
        (runOps s ops) now).1 =
        Except.error (x402_required (nominalRequirements templates
          (buildResource base_url path query)))) := by
  have hall : allUsed (runOps s ops) id :=
    allUsed_runOps s id ops (allUsed_of_get_used s id r0 hnodup hget hused) hops
  exact ⟨hall, fun headers path query base_url templates now hq =>
    resolve_allUsed_errors headers path query base_url templates (runOps s ops)
      now id hq hall⟩

/-- C8 (witness): the amended theorem applied to a store holding a
consumed quote, after an eviction sweep: a resolve on that id at a later
time is still rejected. -/
theorem c8_witness :
    (resolve_payment_requirements ⟨some "q", some "demo-client"⟩ "/r" none "b"
      exampleTemplates
      (runOps [("q", ⟨"0.05", "demo-client", 100, true⟩)] [Op.evict 50]) 60).1 =
      Except.error (x402_required (nominalRequirements exampleTemplates
        (buildResource "b" "/r" none))) :=
  (c8_consumed_stays_consumed [("q", ⟨"0.05", "demo-client", 100, true⟩)] "q"
    ⟨"0.05", "demo-client", 100, true⟩ [Op.evict 50] (by simp) rfl rfl
    (by
      intro op hop
      rw [List.mem_singleton.mp hop]
      rfl)).2
    ⟨some "q", some "demo-client"⟩ "/r" none "b" exampleTemplates 60 rfl

end X402
